import Mathlib

/-!
Verification of the shairport-sync media-player component
(custom_components/shairport_sync/media_player.py).

The development shallowly embeds the stateful Python entity as pure
functions over an explicit record of the mutable instance fields.
Python floats are idealised as exact rationals (for parsing and state)
and as real numbers (for the logarithmic volume-conversion laws).
Logging calls are modelled by boolean flags where a claim depends on
them; otherwise they are no-ops.  Every handler is total, mirroring the
fact that the corresponding Python callback either cannot raise or
catches every exception.
-/

namespace ShairportSync

/-- Playback status values used by the entity
(MediaPlayerState.IDLE / PLAYING / PAUSED in the source). -/
inductive MediaPlayerState where
  | idle
  | playing
  | paused
deriving DecidableEq

/-- Mutable instance fields of ShairportSyncMediaPlayer that the claims
are about: the playback state, the three metadata text fields, the raw
artwork bytes, and the decibel volume envelope.  All optional fields
start as None (none). -/
structure PlayerState where
  player_state : MediaPlayerState
  title : Option String
  artist : Option String
  album : Option String
  media_image : Option (List ℕ)
  volume_db : Option ℚ
  min_db : Option ℚ
  max_db : Option ℚ
deriving DecidableEq

/-- State built by __init__: playback idle, every optional field None. -/
def initialState : PlayerState :=
  { player_state := MediaPlayerState.idle
    title := none
    artist := none
    album := none
    media_image := none
    volume_db := none
    min_db := none
    max_db := none }

/-! ### Idealisation of Python float() on decimal strings

The volume handler calls float() on comma-separated fields.  We model
float() as an exact-rational parser for the decimal literal grammar
[sign] (digits [. digits] | . digits) [(e|E) [sign] digits], with
surrounding whitespace stripped.  Special floating-point spellings
(inf, nan, underscore separators) fall outside the exact-rational
idealisation and are not modelled; no claim depends on them. -/

/-- Split a character list at every comma, as Python str.split on a
comma does: the empty input gives one empty field, and separators at
the ends give empty fields. -/
def splitFields : List Char → List (List Char)
  | [] => [[]]
  | c :: rest =>
      if c = ',' then [] :: splitFields rest
      else
        match splitFields rest with
        | f :: fs => (c :: f) :: fs
        | [] => [[c]]

/-- Strip leading and trailing whitespace, as Python float() does
before parsing. -/
def stripEnds (cs : List Char) : List Char :=
  ((cs.dropWhile Char.isWhitespace).reverse.dropWhile Char.isWhitespace).reverse

/-- Value of a list of decimal digit characters, most significant first. -/
def digitsVal (cs : List Char) : ℕ :=
  cs.foldl (fun a c => 10 * a + (c.toNat - 48)) 0

/-- Mantissa part: digits, digits dot digits, digits dot, or dot digits.
Returns the digit string read as a natural number together with the
count of fractional digits, so the mantissa value is the pair n, k with
numeric value n divided by 10 to the k. -/
def parseMantissa (cs : List Char) : Option (ℕ × ℕ) :=
  let ip := cs.takeWhile Char.isDigit
  match cs.dropWhile Char.isDigit with
  | [] => if ip.isEmpty then none else some (digitsVal ip, 0)
  | '.' :: fp =>
      if fp.all Char.isDigit && !(ip.isEmpty && fp.isEmpty) then
        some (digitsVal ip * 10 ^ fp.length + digitsVal fp, fp.length)
      else none
  | _ => none

/-- Exponent part after the e/E marker: optional sign then digits. -/
def parseExpPart (cs : List Char) : Option ℤ :=
  match cs with
  | '+' :: ds =>
      if !ds.isEmpty && ds.all Char.isDigit then some (digitsVal ds : ℤ) else none
  | '-' :: ds =>
      if !ds.isEmpty && ds.all Char.isDigit then some (-(digitsVal ds : ℤ)) else none
  | ds =>
      if !ds.isEmpty && ds.all Char.isDigit then some (digitsVal ds : ℤ) else none

/-- Unsigned float literal: mantissa with an optional e/E exponent,
returned as numerator and power-of-ten denominator exponent, so the
value of the pair n, k is n divided by 10 to the k. -/
def parseUnsignedParts (cs : List Char) : Option (ℕ × ℕ) :=
  let m := cs.takeWhile (fun c => c != 'e' && c != 'E')
  match cs.dropWhile (fun c => c != 'e' && c != 'E') with
  | [] => parseMantissa m
  | _ :: ex =>
      match parseMantissa m, parseExpPart ex with
      | some p, some e => some (p.1 * 10 ^ e.toNat, p.2 + (-e).toNat)
      | _, _ => none

/-- Python float() on a field: strip whitespace, optional sign, then an
unsigned decimal literal; None models a raised ValueError.  The exact
rational value is assembled with mkRat so that concrete payloads reduce
inside the kernel. -/
def pyFloat (field : List Char) : Option ℚ :=
  match stripEnds field with
  | '+' :: cs => (parseUnsignedParts cs).map (fun p => mkRat p.1 (10 ^ p.2))
  | '-' :: cs => (parseUnsignedParts cs).map (fun p => mkRat (-(p.1 : ℤ)) (10 ^ p.2))
  | cs => (parseUnsignedParts cs).map (fun p => mkRat p.1 (10 ^ p.2))

/-! ### Message handlers

Each handler returns the new state together with two booleans:
the first records whether async_write_ha_state was called (the host
state-changed notification), the second whether _LOGGER.warning was
called.  Debug-level logging is modelled as a no-op. -/

/-- Embedding of _set_state: store the new playback state, clear all
metadata when the new state is idle, then notify the host. -/
def set_state (st : PlayerState) (s : MediaPlayerState) : PlayerState × Bool × Bool :=
  let st1 := { st with player_state := s }
  let st2 :=
    if s = MediaPlayerState.idle then
      { st1 with title := none, artist := none, album := none, media_image := none }
    else st1
  (st2, true, false)

/-- Metadata attributes served by the set_metadata callback factory. -/
inductive MetaAttr where
  | artist
  | album
  | title
deriving DecidableEq

/-- Embedding of the callback built by set_metadata(attr): assign the
payload to the named field; no notification, no warning. -/
def set_metadata (attr : MetaAttr) (st : PlayerState) (payload : String) :
    PlayerState × Bool × Bool :=
  match attr with
  | MetaAttr.artist => ({ st with artist := some payload }, false, false)
  | MetaAttr.album => ({ st with album := some payload }, false, false)
  | MetaAttr.title => ({ st with title := some payload }, false, false)

/-- Embedding of artwork_updated: store the raw payload bytes and
notify the host. -/
def artwork_updated (st : PlayerState) (payload : List ℕ) : PlayerState × Bool × Bool :=
  ({ st with media_image := some payload }, true, false)

/-- Embedding of volume_updated.  The payload is split on commas; with
at least 4 fields the handler assigns float(parts[1]), float(parts[2]),
float(parts[3]) to volume_db, min_db, max_db in that order and then
notifies.  A float() failure raises mid-sequence: assignments already
made persist, the except block logs a warning, and nothing further
happens.  Fewer than 4 fields falls through the if with no assignment,
no notification and no logging. -/
def volume_updated (st : PlayerState) (payload : String) : PlayerState × Bool × Bool :=
  let parts := splitFields payload.toList
  if 4 ≤ parts.length then
    match pyFloat (parts.getD 1 []) with
    | none => (st, false, true)
    | some b =>
      let st1 := { st with volume_db := some b }
      match pyFloat (parts.getD 2 []) with
      | none => (st1, false, true)
      | some c =>
        let st2 := { st1 with min_db := some c }
        match pyFloat (parts.getD 3 []) with
        | none => (st2, false, true)
        | some d => ({ st2 with max_db := some d }, true, false)
  else (st, false, false)

/-- Inbound messages, one constructor per subscribed topic under the
base prefix; pvol is ssnc/pvol, volume is the fallback volume topic. -/
inductive InMsg where
  | play_start
  | play_resume
  | play_end
  | play_flush
  | active_end
  | artist (p : String)
  | album (p : String)
  | title (p : String)
  | cover (p : List ℕ)
  | pvol (p : String)
  | volume (p : String)

/-- Topic router: the dispatch fixed by topic_map and the two
volume-topic subscriptions in _subscribe_to_topics. -/
def handleMessage (st : PlayerState) : InMsg → PlayerState × Bool × Bool
  | InMsg.play_start => set_state st MediaPlayerState.playing
  | InMsg.play_resume => set_state st MediaPlayerState.playing
  | InMsg.play_end => set_state st MediaPlayerState.paused
  | InMsg.play_flush => set_state st MediaPlayerState.paused
  | InMsg.active_end => set_state st MediaPlayerState.idle
  | InMsg.artist p => set_metadata MetaAttr.artist st p
  | InMsg.album p => set_metadata MetaAttr.album st p
  | InMsg.title p => set_metadata MetaAttr.title st p
  | InMsg.cover p => artwork_updated st p
  | InMsg.pvol p => volume_updated st p
  | InMsg.volume p => volume_updated st p

/-! ### Volume controller

The tapered conversion laws use base-10 exponentials and logarithms
and are embedded over the real numbers; the optional arguments mirror
the None checks in the source. -/

/-- Embedding of _tapered_db_to_percent: zero when max_db or db is
unknown, otherwise 10 to the power (db - max_db) / 20, clamped
to the unit interval. -/
noncomputable def tapered_db_to_percent (max_db db : Option ℝ) : ℝ :=
  match max_db, db with
  | some mx, some d => max 0 (min 1 ((10 : ℝ) ^ ((d - mx) / 20)))
  | _, _ => 0

/-- Embedding of _tapered_percent_to_db: when max_db is unknown or the
fraction is not positive, fall back to min_db when known and to -30
otherwise; in the main case return max_db + 20 log10 percent. -/
noncomputable def tapered_percent_to_db (max_db min_db : Option ℝ) (percent : ℝ) : ℝ :=
  match max_db with
  | none => min_db.getD (-30)
  | some mx =>
      if percent ≤ 0 then min_db.getD (-30)
      else mx + 20 * Real.logb 10 percent

/-- Embedding of the volume_level property: None unless volume_db,
min_db and max_db are all known, otherwise the tapered conversion of
the current decibel volume. -/
noncomputable def volume_level (st : PlayerState) : Option ℝ :=
  if st.volume_db = none ∨ st.min_db = none ∨ st.max_db = none then none
  else
    some (tapered_db_to_percent (st.max_db.map (fun q => (q : ℝ)))
      (st.volume_db.map (fun q => (q : ℝ))))

/-- Relative volume commands published to the remote topic by the
feedback loop (Command.VOLUME_UP / VOLUME_DOWN). -/
inductive VolCmd where
  | up
  | down
deriving DecidableEq

/-- Attempt budget of the set-volume feedback loop. -/
def max_attempts : ℕ := 50

/-- Embedding of the while loop of async_set_volume_level, generic in
the ordered field used for decibel values.  The argument env models the
value of the volume_db field as observed at the start of each loop
iteration; it changes between iterations only through asynchronous
volume reports, since the loop body itself never assigns it.  The
result lists each issued command with the iteration index that issued
it, paired with True when the loop stopped inside the tolerance and
False when the attempt budget ran out (the warning-log path).  The
tolerance is 0.5 dB as in the source. -/
def volLoop {α : Type} [LinearOrderedField α]
    [DecidableRel ((· < ·) : α → α → Prop)]
    [DecidableRel ((· ≤ ·) : α → α → Prop)]
    (target : α) (env : ℕ → Option α) : ℕ → ℕ → List (ℕ × VolCmd) × Bool
  | _, 0 => ([], false)
  | k, fuel + 1 =>
    match env k with
    | none => volLoop target env (k + 1) fuel
    | some cur =>
      if |target - cur| ≤ 1 / 2 then ([], true)
      else
        let cmd := if 0 < target - cur then VolCmd.up else VolCmd.down
        let rest := volLoop target env (k + 1) fuel
        ((k, cmd) :: rest.1, rest.2)

/-- Iteration k reads a known volume that is already within the 0.5 dB
tolerance of the target. -/
def goodAt {α : Type} [LinearOrderedField α]
    [DecidableRel ((· ≤ ·) : α → α → Prop)]
    (target : α) (env : ℕ → Option α) (k : ℕ) : Bool :=
  match env k with
  | none => false
  | some cur => decide (|target - cur| ≤ 1 / 2)

/-- Outcome of async_set_volume_level: either the precondition check
aborted before the loop, or the loop ran and produced a command trace
and a reached/exhausted flag. -/
inductive SetVolumeResult where
  | aborted
  | finished (cmds : List (ℕ × VolCmd)) (reached : Bool)

/-- Commands published on the remote topic by a set-volume call. -/
def published : SetVolumeResult → List (ℕ × VolCmd)
  | SetVolumeResult.aborted => []
  | SetVolumeResult.finished cmds _ => cmds

/-- Embedding of async_set_volume_level: the two precondition checks in
source order, then the target computation through the tapered law, then
the feedback loop.  The returned state is the input state: the
coroutine assigns no instance field, all state change during the loop
arrives through volume reports, which the env argument of the loop
models. -/
noncomputable def async_set_volume_level (st : PlayerState) (volume : ℝ)
    (env : ℕ → Option ℝ) : PlayerState × SetVolumeResult :=
  if st.min_db = none ∨ st.max_db = none then (st, SetVolumeResult.aborted)
  else if st.volume_db = none then (st, SetVolumeResult.aborted)
  else
    let target := tapered_percent_to_db (st.max_db.map (fun q => (q : ℝ)))
      (st.min_db.map (fun q => (q : ℝ))) volume
    let r := volLoop target env 0 max_attempts
    (st, SetVolumeResult.finished r.1 r.2)

/-- A volume payload parses completely: at least 4 comma fields and
fields 2 to 4 all numeric. -/
def volumeParseOk (payload : String) : Bool :=
  let parts := splitFields payload.toList
  decide (4 ≤ parts.length) && (pyFloat (parts.getD 1 [])).isSome &&
    (pyFloat (parts.getD 2 [])).isSome && (pyFloat (parts.getD 3 [])).isSome

/-- Messages routed to the volume_updated callback. -/
def isVolumeMsg : InMsg → Bool
  | InMsg.pvol _ => true
  | InMsg.volume _ => true
  | _ => false

/-- Envelope invariant of the spec: whenever all three decibel fields
are known, the current volume lies between the bounds. -/
def envelope_invariant (st : PlayerState) : Prop :=
  ∀ v mn mx : ℚ, st.volume_db = some v → st.min_db = some mn →
    st.max_db = some mx → mn ≤ v ∧ v ≤ mx

/-- Concrete state used by witnesses: playing, with metadata and a
known volume envelope. -/
def demoState : PlayerState :=
  { player_state := MediaPlayerState.playing
    title := some "Song A"
    artist := some "Artist A"
    album := some "Album A"
    media_image := some [255, 216, 255, 224]
    volume_db := some (-2)
    min_db := some (-30)
    max_db := some 0 }

/-! ### Helper lemmas about the feedback loop -/

section VolLoopLemmas

variable {α : Type} [LinearOrderedField α]
variable [DecidableRel ((· < ·) : α → α → Prop)]
variable [DecidableRel ((· ≤ ·) : α → α → Prop)]
variable (target : α) (env : ℕ → Option α)

/-- An unknown reading is never within tolerance. -/
theorem goodAt_none {k : ℕ} (h : env k = none) : goodAt target env k = false := by
  simp only [goodAt, h]

/-- A known reading marked not-good lies outside the tolerance. -/
theorem goodAt_some_false {k : ℕ} {cur : α} (h : env k = some cur)
    (hbad : goodAt target env k = false) : ¬|target - cur| ≤ 1 / 2 := by
  simp only [goodAt, h, decide_eq_false_iff_not] at hbad
  exact hbad

/-- A known reading marked good lies within the tolerance. -/
theorem goodAt_some_true {k : ℕ} {cur : α} (h : env k = some cur)
    (hgood : goodAt target env k = true) : |target - cur| ≤ 1 / 2 := by
  simp only [goodAt, h, decide_eq_true_eq] at hgood
  exact hgood

/-- Unfolding: zero fuel means the budget is exhausted. -/
theorem volLoop_zero (k : ℕ) : volLoop target env k 0 = ([], false) :=
  rfl

/-- Unfolding: an unknown reading waits and consumes one attempt. -/
theorem volLoop_succ_none {k : ℕ} (fuel : ℕ) (h : env k = none) :
    volLoop target env k (fuel + 1) = volLoop target env (k + 1) fuel := by
  rw [volLoop]
  simp only [h]

/-- Unfolding: a reading within tolerance stops the loop with success. -/
theorem volLoop_succ_good {k : ℕ} {cur : α} (fuel : ℕ) (h : env k = some cur)
    (htol : |target - cur| ≤ 1 / 2) :
    volLoop target env k (fuel + 1) = ([], true) := by
  rw [volLoop]
  simp only [h, if_pos htol]

/-- Unfolding: a reading outside tolerance issues one directed command
and continues. -/
theorem volLoop_succ_step {k : ℕ} {cur : α} (fuel : ℕ) (h : env k = some cur)
    (htol : ¬|target - cur| ≤ 1 / 2) :
    volLoop target env k (fuel + 1) =
      ((k, if 0 < target - cur then VolCmd.up else VolCmd.down) ::
          (volLoop target env (k + 1) fuel).1,
        (volLoop target env (k + 1) fuel).2) := by
  rw [volLoop]
  simp only [h, if_neg htol]

/-- The command trace never exceeds the fuel, one command per
iteration at most. -/
theorem volLoop_length_le :
    ∀ (fuel k : ℕ), (volLoop target env k fuel).1.length ≤ fuel := by
  intro fuel
  induction fuel with
  | zero => intro k; simp [volLoop_zero]
  | succ n ih =>
      intro k
      cases h : env k with
      | none =>
          rw [volLoop_succ_none target env n h]
          exact Nat.le_succ_of_le (ih (k + 1))
      | some cur =>
          by_cases htol : |target - cur| ≤ 1 / 2
          · rw [volLoop_succ_good target env n h htol]
            simp
          · rw [volLoop_succ_step target env n h htol]
            simpa using ih (k + 1)

/-- Every issued command carries the index of an iteration inside the
window the loop was run on. -/
theorem volLoop_mem_bounds :
    ∀ (fuel k : ℕ), ∀ p ∈ (volLoop target env k fuel).1,
      k ≤ p.1 ∧ p.1 < k + fuel := by
  intro fuel
  induction fuel with
  | zero => intro k p hp; simp [volLoop_zero] at hp
  | succ n ih =>
      intro k p hp
      cases h : env k with
      | none =>
          rw [volLoop_succ_none target env n h] at hp
          rcases ih (k + 1) p hp with ⟨h1, h2⟩
          exact ⟨Nat.le_of_succ_le h1, by omega⟩
      | some cur =>
          by_cases htol : |target - cur| ≤ 1 / 2
          · rw [volLoop_succ_good target env n h htol] at hp
            simp at hp
          · rw [volLoop_succ_step target env n h htol] at hp
            rcases List.mem_cons.mp hp with rfl | hp
            · exact ⟨Nat.le_refl _, by omega⟩
            · rcases ih (k + 1) p hp with ⟨h1, h2⟩
              exact ⟨Nat.le_of_succ_le h1, by omega⟩

/-- Iteration indices in the trace are strictly increasing: no
iteration issues more than one command. -/
theorem volLoop_pairwise :
    ∀ (fuel k : ℕ),
      (volLoop target env k fuel).1.Pairwise (fun a b => a.1 < b.1) := by
  intro fuel
  induction fuel with
  | zero => intro k; simp [volLoop_zero]
  | succ n ih =>
      intro k
      cases h : env k with
      | none =>
          rw [volLoop_succ_none target env n h]
          exact ih (k + 1)
      | some cur =>
          by_cases htol : |target - cur| ≤ 1 / 2
          · rw [volLoop_succ_good target env n h htol]
            simp
          · rw [volLoop_succ_step target env n h htol]
            refine List.pairwise_cons.mpr ⟨fun p hp => ?_, ih (k + 1)⟩
            exact Nat.lt_of_lt_of_le (Nat.lt_succ_self k)
              (volLoop_mem_bounds target env n (k + 1) p hp).1

/-- Soundness of the trace: a command is issued only at an iteration
that read a known volume outside the tolerance, and its direction is
up exactly when the target is above the reading. -/
theorem volLoop_mem_sound :
    ∀ (fuel k : ℕ), ∀ p ∈ (volLoop target env k fuel).1,
      ∃ cur, env p.1 = some cur ∧ ¬|target - cur| ≤ 1 / 2 ∧
        p.2 = (if 0 < target - cur then VolCmd.up else VolCmd.down) := by
  intro fuel
  induction fuel with
  | zero => intro k p hp; simp [volLoop_zero] at hp
  | succ n ih =>
      intro k p hp
      cases h : env k with
      | none =>
          rw [volLoop_succ_none target env n h] at hp
          exact ih (k + 1) p hp
      | some cur =>
          by_cases htol : |target - cur| ≤ 1 / 2
          · rw [volLoop_succ_good target env n h htol] at hp
            simp at hp
          · rw [volLoop_succ_step target env n h htol] at hp
            rcases List.mem_cons.mp hp with rfl | hp
            · exact ⟨cur, h, htol, rfl⟩
            · exact ih (k + 1) p hp

/-- Completeness of the trace: as long as no earlier iteration in the
window was within tolerance, an iteration that reads a known volume
outside the tolerance issues its command. -/
theorem volLoop_mem_complete :
    ∀ (fuel k j : ℕ) (cur : α), k ≤ j → j < k + fuel →
      (∀ i, k ≤ i → i < j → goodAt target env i = false) →
      env j = some cur → goodAt target env j = false →
      (j, if 0 < target - cur then VolCmd.up else VolCmd.down) ∈
        (volLoop target env k fuel).1 := by
  intro fuel
  induction fuel with
  | zero => intro k j cur h1 h2; omega
  | succ n ih =>
      intro k j cur hkj hj hless hcur hbad
      cases h : env k with
      | none =>
          have hkne : k ≠ j := by
            intro heq; rw [heq, hcur] at h; exact Option.noConfusion h
          rw [volLoop_succ_none target env n h]
          exact ih (k + 1) j cur (by omega) (by omega)
            (fun i hi1 hi2 => hless i (by omega) hi2) hcur hbad
      | some c =>
          by_cases hkjeq : k = j
          · subst hkjeq
            have hc : c = cur := by
              rw [hcur] at h
              exact (Option.some.inj h).symm
            subst hc
            have htol : ¬|target - c| ≤ 1 / 2 :=
              goodAt_some_false target env hcur hbad
            rw [volLoop_succ_step target env n hcur htol]
            exact List.mem_cons_self _ _
          · have hkgood : goodAt target env k = false :=
              hless k (Nat.le_refl k) (by omega)
            have htol : ¬|target - c| ≤ 1 / 2 :=
              goodAt_some_false target env h hkgood
            rw [volLoop_succ_step target env n h htol]
            refine List.mem_cons.mpr (Or.inr ?_)
            exact ih (k + 1) j cur (by omega) (by omega)
              (fun i hi1 hi2 => hless i (by omega) hi2) hcur hbad

/-- The loop stops with success at the first iteration within the
tolerance, issuing no command at or after it. -/
theorem volLoop_stops_at_first_good :
    ∀ (fuel k j : ℕ), k ≤ j → j < k + fuel →
      goodAt target env j = true →
      (∀ i, k ≤ i → i < j → goodAt target env i = false) →
      (volLoop target env k fuel).2 = true ∧
        ∀ p ∈ (volLoop target env k fuel).1, p.1 < j := by
  intro fuel
  induction fuel with
  | zero => intro k j h1 h2; omega
  | succ n ih =>
      intro k j hkj hj hgood hless
      cases h : env k with
      | none =>
          have hkne : k ≠ j := by
            intro heq
            rw [heq] at h
            rw [goodAt_none target env h] at hgood
            exact Bool.noConfusion hgood
          rw [volLoop_succ_none target env n h]
          exact ih (k + 1) j (by omega) (by omega) hgood
            (fun i hi1 hi2 => hless i (by omega) hi2)
      | some cur =>
          by_cases hkjeq : k = j
          · subst hkjeq
            have htol : |target - cur| ≤ 1 / 2 :=
              goodAt_some_true target env h hgood
            rw [volLoop_succ_good target env n h htol]
            simp
          · have hkgood : goodAt target env k = false :=
              hless k (Nat.le_refl k) (by omega)
            have htol : ¬|target - cur| ≤ 1 / 2 :=
              goodAt_some_false target env h hkgood
            rcases ih (k + 1) j (by omega) (by omega) hgood
              (fun i hi1 hi2 => hless i (by omega) hi2) with ⟨hok, hlt⟩
            rw [volLoop_succ_step target env n h htol]
            refine ⟨hok, ?_⟩
            intro p hp
            rcases List.mem_cons.mp hp with rfl | hp
            · omega
            · exact hlt p hp

/-- If no iteration in the window is within tolerance, the attempt
budget runs out and the loop reports failure (the warning-log path). -/
theorem volLoop_exhausts :
    ∀ (fuel k : ℕ),
      (∀ i, k ≤ i → i < k + fuel → goodAt target env i = false) →
      (volLoop target env k fuel).2 = false := by
  intro fuel
  induction fuel with
  | zero => intro k _; simp [volLoop_zero]
  | succ n ih =>
      intro k hall
      cases h : env k with
      | none =>
          rw [volLoop_succ_none target env n h]
          exact ih (k + 1) (fun i hi1 hi2 => hall i (by omega) (by omega))
      | some cur =>
          have hkgood : goodAt target env k = false :=
            hall k (Nat.le_refl k) (by omega)
          have htol : ¬|target - cur| ≤ 1 / 2 :=
            goodAt_some_false target env h hkgood
          rw [volLoop_succ_step target env n h htol]
          exact ih (k + 1) (fun i hi1 hi2 => hall i (by omega) (by omega))

end VolLoopLemmas

/-! ### Helper lemmas about the volume-report handler -/

/-- A fully parsed payload assigns the three parsed fields and
notifies. -/
theorem volume_updated_wellformed (st : PlayerState) (payload : String)
    (b c d : ℚ) (hlen : 4 ≤ (splitFields payload.toList).length)
    (hb : pyFloat ((splitFields payload.toList).getD 1 []) = some b)
    (hc : pyFloat ((splitFields payload.toList).getD 2 []) = some c)
    (hd : pyFloat ((splitFields payload.toList).getD 3 []) = some d) :
    volume_updated st payload =
      ({ st with volume_db := some b, min_db := some c, max_db := some d },
        true, false) := by
  simp only [volume_updated]
  rw [if_pos hlen, hb, hc, hd]

/-- The notification flag of the volume handler equals complete parse
success. -/
theorem volume_updated_notify (st : PlayerState) (payload : String) :
    (volume_updated st payload).2.1 = volumeParseOk payload := by
  simp only [volume_updated, volumeParseOk]
  by_cases hlen : 4 ≤ (splitFields payload.toList).length
  · rw [if_pos hlen]
    cases hb : pyFloat ((splitFields payload.toList).getD 1 []) <;>
      cases hc : pyFloat ((splitFields payload.toList).getD 2 []) <;>
        cases hd : pyFloat ((splitFields payload.toList).getD 3 []) <;>
          rw [decide_eq_true hlen] <;> rfl
  · rw [if_neg hlen, decide_eq_false hlen]
    rfl

/-- Handlers other than the volume handler never touch the decibel
envelope fields. -/
theorem handleMessage_preserves_envelope (st : PlayerState) (m : InMsg)
    (hm : isVolumeMsg m = false) :
    (handleMessage st m).1.volume_db = st.volume_db ∧
    (handleMessage st m).1.min_db = st.min_db ∧
    (handleMessage st m).1.max_db = st.max_db := by
  cases m <;>
    simp_all [handleMessage, set_state, set_metadata, artwork_updated, isVolumeMsg]

/-! ### Claim theorems -/

/-- C1 counterexample: the payload 0,1,x,2 is malformed (field 3 is
non-numeric), yet processing it changes volume_db from unknown to 1,
refuting the claim that malformed payloads leave volume_db, min_db and
max_db all unchanged. -/
theorem volume_updated_partial_write_cex :
    pyFloat ((splitFields "0,1,x,2".toList).getD 2 []) = none ∧
    initialState.volume_db = none ∧
    (volume_updated initialState "0,1,x,2").1.volume_db = some 1 := by
  decide

/-- C1 (amended): the volume handler never raises to its caller (it is
a total function here because the except block catches everything).  A
payload with fewer than 4 comma fields is ignored silently: state
unchanged and nothing logged.  A payload with at least 4 fields where
some of fields 2 to 4 is non-numeric logs a warning, and exactly the
fields preceding the first non-numeric one, in assignment order
volume_db, min_db, max_db, are updated while the rest are unchanged. -/
theorem volume_updated_malformed_spec (st : PlayerState) (payload : String) :
    ((splitFields payload.toList).length < 4 →
      volume_updated st payload = (st, false, false)) ∧
    (4 ≤ (splitFields payload.toList).length →
      pyFloat ((splitFields payload.toList).getD 1 []) = none →
      volume_updated st payload = (st, false, true)) ∧
    (∀ b : ℚ, 4 ≤ (splitFields payload.toList).length →
      pyFloat ((splitFields payload.toList).getD 1 []) = some b →
      pyFloat ((splitFields payload.toList).getD 2 []) = none →
      volume_updated st payload = ({ st with volume_db := some b }, false, true)) ∧
    (∀ b c : ℚ, 4 ≤ (splitFields payload.toList).length →
      pyFloat ((splitFields payload.toList).getD 1 []) = some b →
      pyFloat ((splitFields payload.toList).getD 2 []) = some c →
      pyFloat ((splitFields payload.toList).getD 3 []) = none →
      volume_updated st payload =
        ({ st with volume_db := some b, min_db := some c }, false, true)) := by
  refine ⟨?_, ?_, ?_, ?_⟩
  · intro h
    simp only [volume_updated]
    rw [if_neg (by omega)]
  · intro hlen hb
    simp only [volume_updated]
    rw [if_pos hlen, hb]
  · intro b hlen hb hc
    simp only [volume_updated]
    rw [if_pos hlen, hb, hc]
  · intro b c hlen hb hc hd
    simp only [volume_updated]
    rw [if_pos hlen, hb, hc, hd]

/-- C1 witness: the amended statement applied to the concrete malformed
payload 0,1,x,2 from the initial state. -/
theorem volume_updated_malformed_spec_witness :
    volume_updated initialState "0,1,x,2" =
      ({ initialState with volume_db := some 1 }, false, true) :=
  (volume_updated_malformed_spec initialState "0,1,x,2").2.2.1 1
    (by decide) (by decide) (by decide)

/-- C2 counterexample: the title metadata handler successfully mutates
externally-visible state (the media title) yet does not trigger the
state-changed notification, refuting the claim that every successful
externally-visible mutation notifies the host. -/
theorem metadata_handler_no_notify_cex :
    (handleMessage initialState (InMsg.title "Song A")).1.title = some "Song A" ∧
    initialState.title = none ∧
    (handleMessage initialState (InMsg.title "Song A")).2.1 = false := by
  decide

/-- C2 (amended): the playback-status handlers, the artwork handler,
and the volume-report handler on a fully parsed payload trigger the
asynchronous state-changed notification; the artist, album and title
metadata handlers mutate state without triggering it. -/
theorem handler_notification_spec (st : PlayerState) (p : String)
    (bytes : List ℕ) :
    (handleMessage st InMsg.play_start).2.1 = true ∧
    (handleMessage st InMsg.play_resume).2.1 = true ∧
    (handleMessage st InMsg.play_end).2.1 = true ∧
    (handleMessage st InMsg.play_flush).2.1 = true ∧
    (handleMessage st InMsg.active_end).2.1 = true ∧
    (handleMessage st (InMsg.cover bytes)).2.1 = true ∧
    (handleMessage st (InMsg.pvol p)).2.1 = volumeParseOk p ∧
    (handleMessage st (InMsg.volume p)).2.1 = volumeParseOk p ∧
    (handleMessage st (InMsg.artist p)).2.1 = false ∧
    (handleMessage st (InMsg.album p)).2.1 = false ∧
    (handleMessage st (InMsg.title p)).2.1 = false :=
  ⟨rfl, rfl, rfl, rfl, rfl, rfl, volume_updated_notify st p,
    volume_updated_notify st p, rfl, rfl, rfl⟩

/-- C3 counterexample: processing the volume report 0,5,10,1 from the
initial state leaves the player with volume_db 5, min_db 10, max_db 1,
so all three are known yet min_db exceeds volume_db, refuting the
claimed invariant. -/
theorem envelope_invariant_violation_cex :
    ¬ envelope_invariant (handleMessage initialState (InMsg.pvol "0,5,10,1")).1 := by
  intro h
  have hv : (handleMessage initialState (InMsg.pvol "0,5,10,1")).1.volume_db = some 5 := by
    decide
  have hmn : (handleMessage initialState (InMsg.pvol "0,5,10,1")).1.min_db = some 10 := by
    decide
  have hmx : (handleMessage initialState (InMsg.pvol "0,5,10,1")).1.max_db = some 1 := by
    decide
  have h5 := h 5 10 1 hv hmn hmx
  exact absurd h5.1 (by decide)

/-- C3 (amended): the handler copies the reported fields without any
validation, so after a fully parsed volume report the invariant
min_db at most volume_db at most max_db holds exactly when the report
itself satisfies it; handlers of non-volume messages never modify the
envelope and therefore preserve the invariant. -/
theorem envelope_invariant_conditional (st : PlayerState) (payload : String)
    (b c d : ℚ) (hlen : 4 ≤ (splitFields payload.toList).length)
    (hb : pyFloat ((splitFields payload.toList).getD 1 []) = some b)
    (hc : pyFloat ((splitFields payload.toList).getD 2 []) = some c)
    (hd : pyFloat ((splitFields payload.toList).getD 3 []) = some d) :
    (c ≤ b ∧ b ≤ d → envelope_invariant (volume_updated st payload).1) ∧
    (envelope_invariant (volume_updated st payload).1 → c ≤ b ∧ b ≤ d) ∧
    (∀ (st2 : PlayerState) (m : InMsg), isVolumeMsg m = false →
      envelope_invariant st2 → envelope_invariant (handleMessage st2 m).1) := by
  have heq := volume_updated_wellformed st payload b c d hlen hb hc hd
  refine ⟨?_, ?_, ?_⟩
  · rintro ⟨hcb, hbd⟩
    rw [heq]
    intro v mn mx hv hmn hmx
    have hv' : some b = some v := hv
    have hmn' : some c = some mn := hmn
    have hmx' : some d = some mx := hmx
    obtain rfl := Option.some.inj hv'
    obtain rfl := Option.some.inj hmn'
    obtain rfl := Option.some.inj hmx'
    exact ⟨hcb, hbd⟩
  · intro h
    rw [heq] at h
    exact h b c d rfl rfl rfl
  · intro st2 m hm hinv v mn mx hv hmn hmx
    obtain ⟨h1, h2, h3⟩ := handleMessage_preserves_envelope st2 m hm
    exact hinv v mn mx (h1.symm.trans hv) (h2.symm.trans hmn) (h3.symm.trans hmx)

/-- C3 witness: the report 12.0,-15.0,-30.0,0.0 satisfies the bounds,
so after processing it the invariant holds. -/
theorem envelope_invariant_conditional_witness :
    envelope_invariant (volume_updated initialState "12.0,-15.0,-30.0,0.0").1 :=
  (envelope_invariant_conditional initialState "12.0,-15.0,-30.0,0.0"
    (-15) (-30) 0 (by decide) (by decide) (by decide) (by decide)).1
    ⟨by decide, by decide⟩

/-- C4: a well-formed volume report a,b,c,d with at least 4 fields and
numeric fields 2 to 4 sets volume_db, min_db, max_db to exactly the
parsed values of fields 2, 3, 4, notifies the host, ignores field 1 and
any extra fields (no hypothesis constrains them), and both the primary
ssnc/pvol topic and the fallback volume topic dispatch to the same
handler with identical results. -/
theorem volume_report_wellformed_spec (st : PlayerState) (payload : String)
    (b c d : ℚ) (hlen : 4 ≤ (splitFields payload.toList).length)
    (hb : pyFloat ((splitFields payload.toList).getD 1 []) = some b)
    (hc : pyFloat ((splitFields payload.toList).getD 2 []) = some c)
    (hd : pyFloat ((splitFields payload.toList).getD 3 []) = some d)
    (hcd : c ≤ d) :
    handleMessage st (InMsg.pvol payload) = handleMessage st (InMsg.volume payload) ∧
    handleMessage st (InMsg.pvol payload) =
      ({ st with volume_db := some b, min_db := some c, max_db := some d },
        true, false) :=
  ⟨rfl, volume_updated_wellformed st payload b c d hlen hb hc hd⟩

/-- C4 witness: the scenario payload 12.0,-15.0,-30.0,0.0 from the
spec, delivered from the initial state. -/
theorem volume_report_wellformed_spec_witness :
    handleMessage initialState (InMsg.pvol "12.0,-15.0,-30.0,0.0") =
      handleMessage initialState (InMsg.volume "12.0,-15.0,-30.0,0.0") ∧
    handleMessage initialState (InMsg.pvol "12.0,-15.0,-30.0,0.0") =
      ({ initialState with
          volume_db := some (-15)
          min_db := some (-30)
          max_db := some 0 }, true, false) :=
  volume_report_wellformed_spec initialState "12.0,-15.0,-30.0,0.0"
    (-15) (-30) 0 (by decide) (by decide) (by decide) (by decide) (by decide)

/-- C10: setting the state to idle clears title, artist, album and
artwork in the same single update that records the status (the
functional embedding returns one state, and the notification happens
only after the clearing, so no observer sees idle with stale metadata);
setting any non-idle state leaves every metadata field unchanged. -/
theorem set_state_idle_clears_metadata (st : PlayerState)
    (s : MediaPlayerState) (hs : s ≠ MediaPlayerState.idle) :
    ((set_state st MediaPlayerState.idle).1.player_state = MediaPlayerState.idle ∧
      (set_state st MediaPlayerState.idle).1.title = none ∧
      (set_state st MediaPlayerState.idle).1.artist = none ∧
      (set_state st MediaPlayerState.idle).1.album = none ∧
      (set_state st MediaPlayerState.idle).1.media_image = none ∧
      (set_state st MediaPlayerState.idle).2.1 = true) ∧
    ((set_state st s).1.player_state = s ∧
      (set_state st s).1.title = st.title ∧
      (set_state st s).1.artist = st.artist ∧
      (set_state st s).1.album = st.album ∧
      (set_state st s).1.media_image = st.media_image) := by
  constructor
  · simp [set_state]
  · simp [set_state, hs]

/-- C10 witness: the clearing and preservation statement at a concrete
playing state with metadata present. -/
theorem set_state_idle_clears_metadata_witness :
    ((set_state demoState MediaPlayerState.idle).1.player_state = MediaPlayerState.idle ∧
      (set_state demoState MediaPlayerState.idle).1.title = none ∧
      (set_state demoState MediaPlayerState.idle).1.artist = none ∧
      (set_state demoState MediaPlayerState.idle).1.album = none ∧
      (set_state demoState MediaPlayerState.idle).1.media_image = none ∧
      (set_state demoState MediaPlayerState.idle).2.1 = true) ∧
    ((set_state demoState MediaPlayerState.playing).1.player_state =
        MediaPlayerState.playing ∧
      (set_state demoState MediaPlayerState.playing).1.title = demoState.title ∧
      (set_state demoState MediaPlayerState.playing).1.artist = demoState.artist ∧
      (set_state demoState MediaPlayerState.playing).1.album = demoState.album ∧
      (set_state demoState MediaPlayerState.playing).1.media_image =
        demoState.media_image) :=
  set_state_idle_clears_metadata demoState MediaPlayerState.playing (by decide)

/-- C6: for a fixed known max_db, converting a decibel value strictly
inside the envelope to a fraction and back reproduces it exactly over
the reals. -/
theorem db_percent_roundtrip (mn mx db : ℝ) (h1 : mn < db) (h2 : db < mx) :
    tapered_percent_to_db (some mx) (some mn)
      (tapered_db_to_percent (some mx) (some db)) = db := by
  have hx : (db - mx) / 20 < 0 := by
    apply div_neg_of_neg_of_pos
    · linarith
    · norm_num
  have hpos : (0 : ℝ) < (10 : ℝ) ^ ((db - mx) / 20) :=
    Real.rpow_pos_of_pos (by norm_num) _
  have hlt1 : (10 : ℝ) ^ ((db - mx) / 20) < 1 :=
    Real.rpow_lt_one_of_one_lt_of_neg (by norm_num) hx
  simp only [tapered_db_to_percent]
  rw [min_eq_right hlt1.le, max_eq_right hpos.le]
  simp only [tapered_percent_to_db]
  rw [if_neg (not_le.mpr hpos)]
  rw [Real.logb_rpow (by norm_num) (by norm_num)]
  ring

/-- C6 witness: the round trip at max_db zero, min_db minus thirty and
volume minus fifteen decibels. -/
theorem db_percent_roundtrip_witness :
    tapered_percent_to_db (some 0) (some (-30))
      (tapered_db_to_percent (some 0) (some (-15))) = -15 :=
  db_percent_roundtrip (-30) 0 (-15) (by norm_num) (by norm_num)

/-- C7: the displayed normalized level is unknown unless the whole
envelope is known; when it is known it equals ten to the power of
(volume_db - max_db) / 20 clamped to the unit interval, and in
particular it saturates at one when volume_db exceeds max_db. -/
theorem volume_level_spec (st : PlayerState) :
    ((st.volume_db = none ∨ st.min_db = none ∨ st.max_db = none) →
      volume_level st = none) ∧
    (∀ v mn mx : ℚ, st.volume_db = some v → st.min_db = some mn →
      st.max_db = some mx →
      volume_level st =
        some (max 0 (min 1 ((10 : ℝ) ^ (((v : ℝ) - (mx : ℝ)) / 20))))) ∧
    (∀ v mn mx : ℚ, st.volume_db = some v → st.min_db = some mn →
      st.max_db = some mx → mx < v → volume_level st = some 1) := by
  refine ⟨?_, ?_, ?_⟩
  · intro h
    simp only [volume_level]
    rw [if_pos h]
  · intro v mn mx hv hmn hmx
    simp only [volume_level]
    rw [if_neg (by simp [hv, hmn, hmx]), hv, hmx]
    rfl
  · intro v mn mx hv hmn hmx hlt
    simp only [volume_level]
    rw [if_neg (by simp [hv, hmn, hmx]), hv, hmx]
    show some (max 0 (min 1 ((10 : ℝ) ^ (((v : ℝ) - (mx : ℝ)) / 20)))) = some 1
    have hxpos : (0 : ℝ) < ((v : ℝ) - (mx : ℝ)) / 20 := by
      apply div_pos
      · have : (mx : ℝ) < (v : ℝ) := by exact_mod_cast hlt
        linarith
      · norm_num
    have h1t : (1 : ℝ) < (10 : ℝ) ^ (((v : ℝ) - (mx : ℝ)) / 20) :=
      (Real.one_lt_rpow_iff_of_pos (by norm_num)).mpr
        (Or.inl ⟨by norm_num, hxpos⟩)
    rw [min_eq_left h1t.le, max_eq_right (by norm_num : (0 : ℝ) ≤ 1)]

/-- C7 witness: the level is unknown from the initial state, and from a
fully known envelope it equals the clamped exponential formula. -/
theorem volume_level_spec_witness :
    volume_level initialState = none ∧
    volume_level demoState =
      some (max 0 (min 1
        ((10 : ℝ) ^ (((((-2 : ℚ)) : ℝ) - (((0 : ℚ)) : ℝ)) / 20)))) :=
  ⟨(volume_level_spec initialState).1 (Or.inl rfl),
    (volume_level_spec demoState).2.1 (-2) (-30) 0 rfl rfl rfl⟩

/-- C8: the fraction-to-decibel conversion returns min_db when max_db
is unknown or the fraction is not positive and min_db is known, the
fixed floor of minus thirty in the same situation when min_db is
unknown, and max_db plus twenty times the base-ten logarithm of the
fraction otherwise. -/
theorem percent_to_db_spec :
    (∀ (mxo : Option ℝ) (mn p : ℝ), (mxo = none ∨ p ≤ 0) →
      tapered_percent_to_db mxo (some mn) p = mn) ∧
    (∀ (mxo : Option ℝ) (p : ℝ), (mxo = none ∨ p ≤ 0) →
      tapered_percent_to_db mxo none p = -30) ∧
    (∀ (mx p : ℝ) (mno : Option ℝ), 0 < p →
      tapered_percent_to_db (some mx) mno p = mx + 20 * Real.logb 10 p) := by
  refine ⟨?_, ?_, ?_⟩
  · intro mxo mn p h
    rcases h with rfl | hp
    · rfl
    · cases mxo with
      | none => rfl
      | some mx =>
          simp only [tapered_percent_to_db]
          rw [if_pos hp]
          rfl
  · intro mxo p h
    rcases h with rfl | hp
    · rfl
    · cases mxo with
      | none => rfl
      | some mx =>
          simp only [tapered_percent_to_db]
          rw [if_pos hp]
          rfl
  · intro mx p mno hp
    simp only [tapered_percent_to_db]
    rw [if_neg (not_le.mpr hp)]

/-- C8 witness: the three branches at concrete inputs: fraction zero
with a known minimum, fraction zero with everything unknown, and
fraction one with a known maximum. -/
theorem percent_to_db_spec_witness :
    tapered_percent_to_db (some 0) (some (-30)) 0 = -30 ∧
    tapered_percent_to_db none none 0 = -30 ∧
    tapered_percent_to_db (some 0) (some (-30)) 1 = 0 + 20 * Real.logb 10 1 :=
  ⟨percent_to_db_spec.1 (some 0) (-30) 0 (Or.inr le_rfl),
    percent_to_db_spec.2.1 none 0 (Or.inl rfl),
    percent_to_db_spec.2.2 0 1 (some (-30)) (by norm_num)⟩

/-- C9: a set-volume request arriving while min_db, max_db or the
current volume_db is unknown aborts before the loop: the result is the
abort outcome, no command is published, and the state is returned
unchanged (the embedding is total, so nothing is raised). -/
theorem set_volume_precondition_abort (st : PlayerState) (volume : ℝ)
    (env : ℕ → Option ℝ)
    (h : st.min_db = none ∨ st.max_db = none ∨ st.volume_db = none) :
    async_set_volume_level st volume env = (st, SetVolumeResult.aborted) ∧
    published (async_set_volume_level st volume env).2 = [] := by
  have habort : async_set_volume_level st volume env =
      (st, SetVolumeResult.aborted) := by
    rcases h with h | h | h
    · simp only [async_set_volume_level]
      rw [if_pos (Or.inl h)]
    · simp only [async_set_volume_level]
      rw [if_pos (Or.inr h)]
    · simp only [async_set_volume_level]
      by_cases h2 : st.min_db = none ∨ st.max_db = none
      · rw [if_pos h2]
      · rw [if_neg h2, if_pos h]
  refine ⟨habort, ?_⟩
  rw [habort]
  rfl

/-- C9 witness: the abort at the freshly initialised state, whose
whole envelope is unknown. -/
theorem set_volume_precondition_abort_witness :
    async_set_volume_level initialState (1 / 2) (fun _ => none) =
      (initialState, SetVolumeResult.aborted) ∧
    published (async_set_volume_level initialState (1 / 2) (fun _ => none)).2 = [] :=
  set_volume_precondition_abort initialState (1 / 2) (fun _ => none) (Or.inl rfl)

/-- C5: with a known envelope and known current volume the set-volume
call runs the feedback loop for at most max_attempts = 50 iterations
and returns its outcome without raising (the embedding is total).  The
command trace has at most one command per iteration, all inside the
attempt window, in increasing iteration order; a command is issued at
an iteration exactly when that iteration reads a known volume farther
than the 0.5 dB tolerance from the target and no earlier iteration was
within tolerance, and it is volume-up exactly when the target is above
the reading; the loop stops with success at the first within-tolerance
reading, issuing nothing from that iteration on; and when no iteration
of the window comes within tolerance the budget is exhausted and the
call returns the warning-logged failure outcome. -/
theorem set_volume_loop_spec (st : PlayerState) (volume : ℝ)
    (env : ℕ → Option ℝ) (mn mx v : ℚ)
    (hmn : st.min_db = some mn) (hmx : st.max_db = some mx)
    (hv : st.volume_db = some v) :
    ∃ target : ℝ,
      target = tapered_percent_to_db (some (mx : ℝ)) (some (mn : ℝ)) volume ∧
      ∃ (cmds : List (ℕ × VolCmd)) (ok : Bool),
        async_set_volume_level st volume env =
          (st, SetVolumeResult.finished cmds ok) ∧
        cmds.length ≤ max_attempts ∧
        (∀ p ∈ cmds, p.1 < max_attempts) ∧
        cmds.Pairwise (fun a b => a.1 < b.1) ∧
        (∀ p ∈ cmds, ∃ cur, env p.1 = some cur ∧ ¬|target - cur| ≤ 1 / 2 ∧
          (p.2 = VolCmd.up ↔ cur < target)) ∧
        (∀ (k : ℕ) (cur : ℝ), k < max_attempts →
          (∀ j, j < k → goodAt target env j = false) →
          env k = some cur → goodAt target env k = false →
          (k, if 0 < target - cur then VolCmd.up else VolCmd.down) ∈ cmds) ∧
        (∀ k, k < max_attempts → goodAt target env k = true →
          (∀ j, j < k → goodAt target env j = false) →
          ok = true ∧ ∀ p ∈ cmds, p.1 < k) ∧
        ((∀ k, k < max_attempts → goodAt target env k = false) → ok = false) := by
  refine ⟨tapered_percent_to_db (some (mx : ℝ)) (some (mn : ℝ)) volume, rfl, ?_⟩
  set target := tapered_percent_to_db (some (mx : ℝ)) (some (mn : ℝ)) volume with htarget
  refine ⟨(volLoop target env 0 max_attempts).1,
    (volLoop target env 0 max_attempts).2, ?_, ?_, ?_, ?_, ?_, ?_, ?_, ?_⟩
  · simp only [async_set_volume_level]
    rw [if_neg (by simp [hmn, hmx]), if_neg (by simp [hv]), hmn, hmx]
    rfl
  · exact volLoop_length_le target env max_attempts 0
  · intro p hp
    simpa using (volLoop_mem_bounds target env max_attempts 0 p hp).2
  · exact volLoop_pairwise target env max_attempts 0
  · intro p hp
    obtain ⟨cur, hcur, htol, hcmd⟩ :=
      volLoop_mem_sound target env max_attempts 0 p hp
    refine ⟨cur, hcur, htol, ?_⟩
    by_cases hdir : 0 < target - cur
    · rw [hcmd, if_pos hdir]
      exact ⟨fun _ => sub_pos.mp hdir, fun _ => rfl⟩
    · rw [hcmd, if_neg hdir]
      constructor
      · intro hud
        exact absurd hud (by decide)
      · intro hcl
        exact absurd (sub_pos.mpr hcl) hdir
  · intro k cur hk hless hcur hbad
    exact volLoop_mem_complete target env max_attempts 0 k cur (Nat.zero_le k)
      (by omega) (fun i _ hi2 => hless i hi2) hcur hbad
  · intro k hk hgood hless
    exact volLoop_stops_at_first_good target env max_attempts 0 k
      (Nat.zero_le k) (by omega) hgood (fun i _ hi2 => hless i hi2)
  · intro hall
    exact volLoop_exhausts target env max_attempts 0
      (fun i _ hi2 => hall i (by omega))

/-- C5 witness: the loop statement at the demo state, with target
fraction one, witnessing that the preconditions are satisfiable. -/
theorem set_volume_loop_spec_witness :
    ∃ target : ℝ,
      target = tapered_percent_to_db (some ((0 : ℚ) : ℝ))
        (some ((-30 : ℚ) : ℝ)) 1 ∧
      ∃ (cmds : List (ℕ × VolCmd)) (ok : Bool),
        async_set_volume_level demoState 1 (fun _ => none) =
          (demoState, SetVolumeResult.finished cmds ok) ∧
        cmds.length ≤ max_attempts ∧
        (∀ p ∈ cmds, p.1 < max_attempts) ∧
        cmds.Pairwise (fun a b => a.1 < b.1) ∧
        (∀ p ∈ cmds, ∃ cur, (fun _ : ℕ => (none : Option ℝ)) p.1 = some cur ∧
          ¬|target - cur| ≤ 1 / 2 ∧ (p.2 = VolCmd.up ↔ cur < target)) ∧
        (∀ (k : ℕ) (cur : ℝ), k < max_attempts →
          (∀ j, j < k → goodAt target (fun _ => none) j = false) →
          (fun _ : ℕ => (none : Option ℝ)) k = some cur →
          goodAt target (fun _ => none) k = false →
          (k, if 0 < target - cur then VolCmd.up else VolCmd.down) ∈ cmds) ∧
        (∀ k, k < max_attempts → goodAt target (fun _ => none) k = true →
          (∀ j, j < k → goodAt target (fun _ => none) j = false) →
          ok = true ∧ ∀ p ∈ cmds, p.1 < k) ∧
        ((∀ k, k < max_attempts → goodAt target (fun _ => none) k = false) →
          ok = false) :=
  set_volume_loop_spec demoState 1 (fun _ => none) (-30) 0 (-2) rfl rfl rfl

end ShairportSync
